import Mathlib

/-!
Verification of the Sentiment-Aware OTT Recommendation engine.

The repository ships the UI layer (`src/app.py`); the hybrid engine it calls
(`HybridRecommenderSystem`, `DataPreprocessor`) is not present in the sources,
so the engine is modelled from the specification (each such definition is
marked `Modelled from the spec:`).  Scores and ratings are embedded as exact
rationals; the collaborative model left abstract by the spec ("e.g.,
factorized rating matrix or neighborhood-based similarity") is a parameter
`fit : List Rating → Nat → Nat → ℚ` of the engine, so theorems about
ranking, filtering and blending hold for every such model.
-/

/-- Modelled from the spec: the closed enumeration of sentiment dispositions
(`positive_seeker`, `balanced`, `critical`) carried on a `UserProfile`. -/
inductive SentimentProfile where
  | positive_seeker
  | balanced
  | critical
deriving DecidableEq

/-- Modelled from the spec: a catalog movie — `id` (unique key), `title`,
`genres` (set of category labels), `sentiment_score` (rational in [0,1],
optional: absent if no reviews matched). -/
structure Movie where
  id : Nat
  title : String
  genres : List String
  sentiment_score : Option ℚ
deriving DecidableEq

/-- Modelled from the spec: a rating row `{userId, movieId, rating}`. -/
structure Rating where
  userId : Nat
  movieId : Nat
  rating : ℚ
deriving DecidableEq

/-- Modelled from the spec: the per-user profile produced by the
User Profile Builder. -/
structure UserProfile where
  userId : Nat
  averageRating : ℚ
  totalRatings : Nat
  genreCounts : List (String × Nat)
  sentimentProfile : SentimentProfile
deriving DecidableEq

/-- Modelled from the spec: the typed error kinds of §7 — NotFound
(unknown user), Unavailable (before initialization), InvalidInput
(item count ≤ 0). -/
inductive EngineError where
  | notFound
  | unavailable
  | invalidInput
deriving DecidableEq

/-- The ratings of one user, in table order. -/
def usersRatingsOf (ratings : List Rating) (u : Nat) : List Rating :=
  ratings.filter (fun rt => rt.userId == u)

/-- Modelled from the spec: ratings referencing a movie absent from the
catalog are dropped during initialization, not fatal. -/
def validRatings (movies : List Movie) (ratings : List Rating) : List Rating :=
  ratings.filter (fun rt => movies.any (fun m => m.id == rt.movieId))

/-- Sentiment score attached to a catalog movie, if any. -/
def movieSentiment (movies : List Movie) (mid : Nat) : Option ℚ :=
  match movies.find? (fun m => m.id == mid) with
  | some m => m.sentiment_score
  | none => none

/-- Genre labels of a catalog movie (empty for an unknown id). -/
def genresOf (movies : List Movie) (mid : Nat) : List String :=
  match movies.find? (fun m => m.id == mid) with
  | some m => m.genres
  | none => []

/-- Exact arithmetic mean of a list of rationals (0 for the empty list). -/
def meanOf (l : List ℚ) : ℚ := l.sum / l.length

/-- Modelled from the spec: minimum rating count (suggested 5) below which a
user cannot support the sentiment comparison and is classified `balanced`. -/
def minRatingCount : Nat := 5

/-- A user's ratings of high-sentiment movies (sentiment_score > 0.6). -/
def highSentRatings (movies : List Movie) (rs : List Rating) : List Rating :=
  rs.filter (fun rt =>
    match movieSentiment movies rt.movieId with
    | some s => decide ((3 : ℚ)/5 < s)
    | none => false)

/-- A user's ratings of low-sentiment movies (sentiment_score < 0.4). -/
def lowSentRatings (movies : List Movie) (rs : List Rating) : List Rating :=
  rs.filter (fun rt =>
    match movieSentiment movies rt.movieId with
    | some s => decide (s < (2 : ℚ)/5)
    | none => false)

/-- Modelled from the spec: the sentiment-disposition classifier of §4.1 —
compare the user's average rating on high-sentiment movies (> 0.6) with the
average on low-sentiment movies (< 0.4); at least one rating point higher
means `positive_seeker`, the reverse `critical`, otherwise `balanced`; a user
with fewer than `minRatingCount` ratings, or whose buckets cannot support the
comparison (one of them empty), is `balanced` by default. -/
def classifySentiment (movies : List Movie) (rs : List Rating) : SentimentProfile :=
  if rs.length < minRatingCount then .balanced
  else
    let hi := highSentRatings movies rs
    let lo := lowSentRatings movies rs
    if hi = [] ∨ lo = [] then .balanced
    else if meanOf (lo.map (·.rating)) + 1 ≤ meanOf (hi.map (·.rating)) then .positive_seeker
    else if meanOf (hi.map (·.rating)) + 1 ≤ meanOf (lo.map (·.rating)) then .critical
    else .balanced

/-- Ordering used for genre counts: descending count, ties by ascending
genre label (deterministic, as §4.1 requires). -/
def countRel (x y : String × Nat) : Prop :=
  y.2 < x.2 ∨ (x.2 = y.2 ∧ x.1 ≤ y.1)

instance : DecidableRel countRel := fun x y => by
  unfold countRel; infer_instance

instance : IsTotal (String × Nat) countRel where
  total x y := by
    rcases lt_trichotomy x.2 y.2 with h | h | h
    · exact Or.inr (Or.inl h)
    · rcases le_total x.1 y.1 with h1 | h1
      · exact Or.inl (Or.inr ⟨h, h1⟩)
      · exact Or.inr (Or.inr ⟨h.symm, h1⟩)
    · exact Or.inl (Or.inl h)

instance : IsTrans (String × Nat) countRel where
  trans x y z hxy hyz := by
    rcases hxy with h1 | ⟨e1, l1⟩ <;> rcases hyz with h2 | ⟨e2, l2⟩
    · exact Or.inl (h2.trans h1)
    · exact Or.inl (e2 ▸ h1)
    · exact Or.inl (e1 ▸ h2)
    · exact Or.inr ⟨e1.trans e2, l1.trans l2⟩

/-- Modelled from the spec: genre counts for one user — one occurrence per
(user, genre) pair for each rated movie, ranked by descending count with ties
broken by genre label. -/
def userGenreCounts (movies : List Movie) (rs : List Rating) : List (String × Nat) :=
  let gs := (rs.foldr (fun rt acc => genresOf movies rt.movieId ++ acc) []).dedup
  let pairs := gs.map
    (fun g => (g, rs.countP (fun rt => decide (g ∈ genresOf movies rt.movieId))))
  List.insertionSort countRel pairs

/-- Modelled from the spec: the profile the User Profile Builder derives for
one user from that user's rating history. -/
def buildProfile (movies : List Movie) (ratings : List Rating) (u : Nat) : UserProfile :=
  let rs := usersRatingsOf ratings u
  { userId := u
    averageRating := meanOf (rs.map (·.rating))
    totalRatings := rs.length
    genreCounts := userGenreCounts movies rs
    sentimentProfile := classifySentiment movies rs }

/-- Modelled from the spec: `buildProfiles(ratings, movies)` — the mapping
userId → UserProfile, one entry per user appearing in the ratings table. -/
def buildProfiles (movies : List Movie) (ratings : List Rating) : List (Nat × UserProfile) :=
  ((ratings.map (·.userId)).dedup).map (fun u => (u, buildProfile movies ratings u))

/-- Modelled from the spec: the engine state after `initialize` — immutable
catalog and (filtered) ratings table, the precomputed profile map, and the
fitted collaborative prediction model. -/
structure Engine where
  movies : List Movie
  ratings : List Rating
  profiles : List (Nat × UserProfile)
  predict : Nat → Nat → ℚ

/-- Modelled from the spec: build all derived state from the inputs — drop
ratings with unknown movieId, precompute every user profile, fit the
collaborative model (`fit` abstracts the training step). -/
def mkEngine (fit : List Rating → Nat → Nat → ℚ)
    (movies : List Movie) (ratings : List Rating) : Engine :=
  let vr := validRatings movies ratings
  { movies := movies
    ratings := vr
    profiles := buildProfiles movies vr
    predict := fit vr }

/-- Modelled from the spec: the orchestrator's `initialize(movies, ratings)`
transition (`none` is Uninitialized, `some e` is Ready) — builds profiles and
fits the scorer; re-initialization rebuilds all derived state from scratch,
discarding any previous state. -/
def engineInit (_ : Option Engine) (fit : List Rating → Nat → Nat → ℚ)
    (movies : List Movie) (ratings : List Rating) : Option Engine :=
  some (mkEngine fit movies ratings)

/-- Ranking order for scored items `(movieId, score)`: non-increasing score,
ties broken by ascending movieId for determinism (§4.2). -/
def scoreRel (x y : Nat × ℚ) : Prop :=
  y.2 < x.2 ∨ (x.2 = y.2 ∧ x.1 ≤ y.1)

instance : DecidableRel scoreRel := fun x y => by
  unfold scoreRel; infer_instance

instance : IsTotal (Nat × ℚ) scoreRel where
  total x y := by
    rcases lt_trichotomy x.2 y.2 with h | h | h
    · exact Or.inr (Or.inl h)
    · rcases le_total x.1 y.1 with h1 | h1
      · exact Or.inl (Or.inr ⟨h, h1⟩)
      · exact Or.inr (Or.inr ⟨h.symm, h1⟩)
    · exact Or.inl (Or.inl h)

instance : IsTrans (Nat × ℚ) scoreRel where
  trans x y z hxy hyz := by
    rcases hxy with h1 | ⟨e1, l1⟩ <;> rcases hyz with h2 | ⟨e2, l2⟩
    · exact Or.inl (h2.trans h1)
    · exact Or.inl (e2 ▸ h1)
    · exact Or.inl (e1 ▸ h2)
    · exact Or.inr ⟨e1.trans e2, l1.trans l2⟩

/-- Whether user `u` has a stored rating for movie `mid`. -/
def hasRated (ratings : List Rating) (u mid : Nat) : Bool :=
  ratings.any (fun rt => rt.userId == u && rt.movieId == mid)

/-- Modelled from the spec: the Collaborative Scorer's
`recommend(userId, n)` — score every catalog movie the user has not rated
with the fitted model, order by descending predicted score with ties broken
by ascending movieId, return the first `n`. -/
def collabRecommend (e : Engine) (u : Nat) (n : Nat) : List (Nat × ℚ) :=
  let unseen := e.movies.filter (fun m => !hasRated e.ratings u m.id)
  let scored := unseen.map (fun m => (m.id, e.predict u m.id))
  (List.insertionSort scoreRel scored).take n

/-- Modelled from the spec: the Blender's fixed weighting constant `w`
(suggested 0.5–1.0 on the rating scale). -/
def blendWeight : ℚ := 1

/-- Modelled from the spec: `blend(userProfile, baseScore, movieSentiment)` —
missing sentiment is treated as neutral 0.5 (never 0); `positive_seeker`
adds `w·(s − 0.5)`, `critical` subtracts it, `balanced` leaves the base
score unchanged. -/
def blend (p : UserProfile) (baseScore : ℚ) (movieSent : Option ℚ) : ℚ :=
  let s := movieSent.getD (1/2)
  match p.sentimentProfile with
  | .positive_seeker => baseScore + blendWeight * (s - 1/2)
  | .critical => baseScore - blendWeight * (s - 1/2)
  | .balanced => baseScore

/-- A scored candidate carried through the Diversity Reranker: movie id,
(blended) score, and the movie's genre set. -/
structure Candidate where
  movieId : Nat
  score : ℚ
  genres : Finset String
deriving DecidableEq

/-- All genres present in a candidate pool. -/
def poolGenres (l : List Candidate) : Finset String :=
  l.foldr (fun c acc => c.genres ∪ acc) ∅

/-- `preferred x y` holds when `x` ranks before `y`: higher score, or equal
score and lower-or-equal movieId. -/
def preferred (x y : Candidate) : Bool :=
  decide (y.score < x.score) || (decide (x.score = y.score) && decide (x.movieId ≤ y.movieId))

/-- The best candidate among `c :: l` under `preferred`. -/
def pickBest (c : Candidate) (l : List Candidate) : Candidate :=
  match l with
  | [] => c
  | d :: ds => if preferred c d then pickBest c ds else pickBest d ds

/-- Modelled from the spec: one greedy maximal-marginal-relevance pick — the
highest-scoring candidate whose genre set is not already fully covered by the
selection, falling back to pure highest-score selection once every remaining
genre is represented; ties break by ascending movieId. -/
def chooseNext (pool : List Candidate) (covered : Finset String) : Option Candidate :=
  match pool with
  | [] => none
  | c :: rest =>
    match (c :: rest).filter (fun d => !decide (d.genres ⊆ covered)) with
    | [] => some (pickBest c rest)
    | d :: ds => some (pickBest d ds)

/-- Modelled from the spec: the greedy selection loop of the Diversity
Reranker — repeatedly apply `chooseNext`, removing the chosen candidate from
the pool and adding its genres to the covered set. -/
def greedySelect (fuel : Nat) (pool : List Candidate) (covered : Finset String) :
    List Candidate :=
  match fuel with
  | 0 => []
  | f + 1 =>
    match chooseNext pool covered with
    | none => []
    | some chosen => chosen :: greedySelect f (pool.erase chosen) (covered ∪ chosen.genres)

/-- Modelled from the spec: the Diversity Reranker's
`rerank(candidates, n)` — greedy genre-coverage selection of at most `n`
items starting from an empty covered-genre set. -/
def rerank (candidates : List Candidate) (n : Nat) : List Candidate :=
  greedySelect n candidates ∅

/-- Modelled from the spec: the blended candidate pool used by the
sentiment-aware and diverse modes — a collaborative pool of size `3·n`
(the suggested 3–5×n oversampling), each base score blended with the
movie's sentiment under the user's profile. -/
def blendedPool (e : Engine) (p : UserProfile) (u : Nat) (n : Nat) : List (Nat × ℚ) :=
  (collabRecommend e u (3 * n)).map
    (fun q => (q.1, blend p q.2 (movieSentiment e.movies q.1)))

/-- The blended pool with genre sets attached, as fed to the reranker. -/
def diverseCandidates (e : Engine) (p : UserProfile) (u : Nat) (n : Nat) : List Candidate :=
  (blendedPool e p u n).map
    (fun q => { movieId := q.1, score := q.2, genres := (genresOf e.movies q.1).toFinset })

/-- Modelled from the spec: `analyzeUser(userId)` — the profile from the
precomputed map, or NotFound for a user with no rating history; Unavailable
before initialization. -/
def analyzeUser (s : Option Engine) (u : Nat) : Except EngineError UserProfile :=
  match s with
  | none => .error .unavailable
  | some e =>
    match e.profiles.lookup u with
    | some p => .ok p
    | none => .error .notFound

/-- Modelled from the spec: `recommendCollaborative(userId, n)` — pass-through
to the Collaborative Scorer; InvalidInput for `n ≤ 0`, NotFound for an
unknown user, Unavailable before initialization. -/
def recommendCollaborative (s : Option Engine) (u : Nat) (n : Int) :
    Except EngineError (List (Nat × ℚ)) :=
  match s with
  | none => .error .unavailable
  | some e =>
    if n ≤ 0 then .error .invalidInput
    else
      match e.profiles.lookup u with
      | none => .error .notFound
      | some _ => .ok (collabRecommend e u n.toNat)

/-- Modelled from the spec: `recommendSentimentAware(userId, n)` — blend each
pool candidate's score, sort descending by adjusted score (ties by ascending
movieId), return the top `n`. -/
def recommendSentimentAware (s : Option Engine) (u : Nat) (n : Int) :
    Except EngineError (List (Nat × ℚ)) :=
  match s with
  | none => .error .unavailable
  | some e =>
    if n ≤ 0 then .error .invalidInput
    else
      match e.profiles.lookup u with
      | none => .error .notFound
      | some p =>
        .ok ((List.insertionSort scoreRel (blendedPool e p u n.toNat)).take n.toNat)

/-- Modelled from the spec: `recommendDiverse(userId, n)` — the same candidate
generation and blending as the sentiment-aware mode, then the Diversity
Reranker instead of plain sorting. -/
def recommendDiverse (s : Option Engine) (u : Nat) (n : Int) :
    Except EngineError (List Candidate) :=
  match s with
  | none => .error .unavailable
  | some e =>
    if n ≤ 0 then .error .invalidInput
    else
      match e.profiles.lookup u with
      | none => .error .notFound
      | some p => .ok (rerank (diverseCandidates e p u n.toNat) n.toNat)

/-- A recommendation row as rendered by the UI (`src/app.py`): title, movie
id, and the two optional score fields a row may carry. -/
structure DisplayRow where
  title : String
  movieId : Nat
  adjusted_score : Option ℚ
  predicted_rating : Option ℚ
deriving DecidableEq

/-- The score displayed for a row, from `src/app.py` line 174:
`score = row.get('adjusted_score', row.get('predicted_rating', 0))`. -/
def displayScore (row : DisplayRow) : ℚ :=
  row.adjusted_score.getD (row.predicted_rating.getD 0)

/-- Claim C4: the Blender's formula — `positive_seeker` adds
`w·(movieSentiment − 0.5)`, `critical` subtracts it, `balanced` returns the
base score unchanged; a missing sentiment is replaced by the neutral 0.5, so
the adjustment term vanishes and the result is the base score, never the
value obtained from a zero default. -/
theorem C4_blend_formula (p : UserProfile) (b : ℚ) (s : ℚ) :
    (blend p b (some s) =
      match p.sentimentProfile with
      | .positive_seeker => b + blendWeight * (s - 1/2)
      | .critical => b - blendWeight * (s - 1/2)
      | .balanced => b) ∧
    blend p b none = b := by
  constructor
  · cases h : p.sentimentProfile <;> simp [blend, h]
  · cases h : p.sentimentProfile <;> simp [blend, h]

/-- Claim C3: for every user profile, base score and sentiment value in
[0, 1] (including the extremes, and including a missing value, which defaults
to the neutral 0.5), the Blender moves the score by at most the fixed
weight `w`. -/
theorem C3_blend_adjustment_bounded (p : UserProfile) (b : ℚ) (ms : Option ℚ)
    (h0 : 0 ≤ ms.getD (1/2)) (h1 : ms.getD (1/2) ≤ 1) :
    |blend p b ms - b| ≤ blendWeight := by
  have hw : blendWeight = 1 := rfl
  cases h : p.sentimentProfile <;>
    simp only [blend, h, hw, one_mul] <;>
    rw [abs_le] <;>
    constructor <;>
    · simp only [add_sub_cancel_left, sub_sub_cancel_left, sub_self] <;> linarith

/-- Witness for C3 at a concrete extreme input: a `positive_seeker` profile,
base score 3, sentiment 1. -/
theorem C3_blend_adjustment_bounded_witness :
    (0 ≤ (some (1 : ℚ)).getD (1/2) ∧ (some (1 : ℚ)).getD (1/2) ≤ 1) ∧
      |blend ⟨7, 0, 0, [], .positive_seeker⟩ 3 (some 1) - 3| ≤ blendWeight :=
  ⟨⟨by norm_num, by norm_num⟩,
    C3_blend_adjustment_bounded ⟨7, 0, 0, [], .positive_seeker⟩ 3 (some 1)
      (by norm_num) (by norm_num)⟩

/-- Claim C10: the UI's displayed score (src/app.py line 174) is the row's
`adjusted_score` when present, otherwise its `predicted_rating` when present,
otherwise the constant 0 — a row with neither field still renders, with
score 0. -/
theorem C10_display_score (t : String) (mid : Nat) (v q : ℚ) :
    displayScore ⟨t, mid, some v, some q⟩ = v ∧
    displayScore ⟨t, mid, some v, none⟩ = v ∧
    displayScore ⟨t, mid, none, some q⟩ = q ∧
    displayScore ⟨t, mid, none, none⟩ = 0 :=
  ⟨rfl, rfl, rfl, rfl⟩

/-- Claim C8: initialization is idempotent and deterministic — a second
`initialize` with the same inputs yields the same state, the same profile
map, and the same output for each of the four query operations. -/
theorem C8_engineInit_idempotent (s : Option Engine)
    (fit : List Rating → Nat → Nat → ℚ) (movies : List Movie)
    (ratings : List Rating) (u : Nat) (n : Int) :
    engineInit (engineInit s fit movies ratings) fit movies ratings =
        engineInit s fit movies ratings ∧
    (engineInit (engineInit s fit movies ratings) fit movies ratings).map
        Engine.profiles = (engineInit s fit movies ratings).map Engine.profiles ∧
    analyzeUser (engineInit (engineInit s fit movies ratings) fit movies ratings) u =
        analyzeUser (engineInit s fit movies ratings) u ∧
    recommendCollaborative (engineInit (engineInit s fit movies ratings) fit movies ratings) u n =
        recommendCollaborative (engineInit s fit movies ratings) u n ∧
    recommendSentimentAware (engineInit (engineInit s fit movies ratings) fit movies ratings) u n =
        recommendSentimentAware (engineInit s fit movies ratings) u n ∧
    recommendDiverse (engineInit (engineInit s fit movies ratings) fit movies ratings) u n =
        recommendDiverse (engineInit s fit movies ratings) u n :=
  ⟨rfl, rfl, rfl, rfl, rfl, rfl⟩

/-- Claim C7: a requested item count ≤ 0 (in particular 0) makes each
count-taking query operation fail with InvalidInput instead of returning an
empty successful result. -/
theorem C7_nonpositive_count_invalid (e : Engine) (u : Nat) (n : Int)
    (hn : n ≤ 0) :
    recommendCollaborative (some e) u n = .error .invalidInput ∧
    recommendSentimentAware (some e) u n = .error .invalidInput ∧
    recommendDiverse (some e) u n = .error .invalidInput := by
  refine ⟨?_, ?_, ?_⟩ <;>
    simp [recommendCollaborative, recommendSentimentAware, recommendDiverse, hn]

/-- Witness for C7: the empty-catalog engine, user 1, count 0. -/
theorem C7_nonpositive_count_invalid_witness :
    ((0 : Int) ≤ 0) ∧
      (recommendCollaborative (some (mkEngine (fun _ _ _ => 0) [] [])) 1 0 =
          .error .invalidInput ∧
        recommendSentimentAware (some (mkEngine (fun _ _ _ => 0) [] [])) 1 0 =
          .error .invalidInput ∧
        recommendDiverse (some (mkEngine (fun _ _ _ => 0) [] [])) 1 0 =
          .error .invalidInput) :=
  ⟨le_refl 0, C7_nonpositive_count_invalid (mkEngine (fun _ _ _ => 0) [] []) 1 0 (le_refl 0)⟩

/-- Looking a key up in an association list built by pairing each key with
`f` of that key finds `f` of the key exactly when the key occurs. -/
theorem lookup_map_pair (f : Nat → UserProfile) (l : List Nat) (u : Nat) :
    (l.map (fun v => (v, f v))).lookup u = if u ∈ l then some (f u) else none := by
  induction l with
  | nil => simp
  | cons v l ih =>
    by_cases h : u = v
    · subst h
      simp [List.lookup]
    · simp [List.lookup, beq_false_of_ne h, ih, List.mem_cons, h]

/-- A user appears among the deduplicated userIds of the table exactly when
the user has at least one rating there. -/
theorem mem_users_iff (ratings : List Rating) (u : Nat) :
    u ∈ (ratings.map (·.userId)).dedup ↔ usersRatingsOf ratings u ≠ [] := by
  rw [List.mem_dedup, List.mem_map]
  unfold usersRatingsOf
  constructor
  · rintro ⟨rt, hrt, he⟩ hnil
    have hmem : rt ∈ ratings.filter (fun r => r.userId == u) :=
      List.mem_filter.mpr ⟨hrt, by simp [he]⟩
    rw [hnil] at hmem
    exact absurd hmem (List.not_mem_nil rt)
  · intro h
    obtain ⟨rt, hrt⟩ := List.exists_mem_of_ne_nil _ h
    have hm := List.mem_filter.mp hrt
    exact ⟨rt, hm.1, by simpa using hm.2⟩

/-- The profile map built at initialization holds exactly the users with at
least one (valid) rating, each mapped to the profile built for them. -/
theorem lookup_profiles (movies : List Movie) (ratings : List Rating) (u : Nat) :
    (buildProfiles movies ratings).lookup u =
      if usersRatingsOf ratings u = [] then none
      else some (buildProfile movies ratings u) := by
  unfold buildProfiles
  rw [lookup_map_pair]
  by_cases h : usersRatingsOf ratings u = []
  · rw [if_neg (fun hm => ((mem_users_iff ratings u).mp hm) h), if_pos h]
  · rw [if_pos ((mem_users_iff ratings u).mpr h), if_neg h]

/-- Claim C1: for every user with at least one rating in the engine's ratings
table, `analyzeUser` succeeds with a profile whose `totalRatings` is the
number of that user's ratings and whose `averageRating` is their exact
arithmetic mean. -/
theorem C1_analyzeUser_mean_count (fit : List Rating → Nat → Nat → ℚ)
    (movies : List Movie) (ratings : List Rating) (u : Nat)
    (hu : usersRatingsOf (validRatings movies ratings) u ≠ []) :
    ∃ p, analyzeUser (engineInit none fit movies ratings) u = .ok p ∧
      p.totalRatings = (usersRatingsOf (validRatings movies ratings) u).length ∧
      p.averageRating =
        ((usersRatingsOf (validRatings movies ratings) u).map (·.rating)).sum /
          ((usersRatingsOf (validRatings movies ratings) u).length : ℚ) := by
  refine ⟨buildProfile movies (validRatings movies ratings) u, ?_, rfl, ?_⟩
  · show analyzeUser (some (mkEngine fit movies ratings)) u = _
    simp only [analyzeUser, mkEngine]
    rw [lookup_profiles, if_neg hu]
  · simp [buildProfile, meanOf]

/-- Witness for C1: a one-movie catalog and a single rating by user 7. -/
theorem C1_analyzeUser_mean_count_witness :
    (usersRatingsOf (validRatings [⟨1, "A", ["Drama"], some (9/10)⟩]
        [⟨7, 1, 4⟩]) 7 ≠ []) ∧
    (∃ p, analyzeUser (engineInit none (fun _ _ _ => 0)
          [⟨1, "A", ["Drama"], some (9/10)⟩] [⟨7, 1, 4⟩]) 7 = .ok p ∧
      p.totalRatings = (usersRatingsOf (validRatings [⟨1, "A", ["Drama"], some (9/10)⟩]
          [⟨7, 1, 4⟩]) 7).length ∧
      p.averageRating =
        ((usersRatingsOf (validRatings [⟨1, "A", ["Drama"], some (9/10)⟩]
            [⟨7, 1, 4⟩]) 7).map (·.rating)).sum /
          ((usersRatingsOf (validRatings [⟨1, "A", ["Drama"], some (9/10)⟩]
              [⟨7, 1, 4⟩]) 7).length : ℚ)) :=
  ⟨by decide, C1_analyzeUser_mean_count (fun _ _ _ => 0)
    [⟨1, "A", ["Drama"], some (9/10)⟩] [⟨7, 1, 4⟩] 7 (by decide)⟩

/-- Claim C6: a user with no rating history gets the typed NotFound failure
from each of the four query operations — never an empty or fabricated
result. -/
theorem C6_unknown_user_notFound (fit : List Rating → Nat → Nat → ℚ)
    (movies : List Movie) (ratings : List Rating) (u : Nat) (n : Int)
    (hu : usersRatingsOf (validRatings movies ratings) u = []) (hn : 0 < n) :
    analyzeUser (engineInit none fit movies ratings) u = .error .notFound ∧
    recommendCollaborative (engineInit none fit movies ratings) u n = .error .notFound ∧
    recommendSentimentAware (engineInit none fit movies ratings) u n = .error .notFound ∧
    recommendDiverse (engineInit none fit movies ratings) u n = .error .notFound := by
  have hl : (buildProfiles movies (validRatings movies ratings)).lookup u = none := by
    rw [lookup_profiles, if_pos hu]
  have hn' : ¬ n ≤ 0 := not_le.mpr hn
  refine ⟨?_, ?_, ?_, ?_⟩ <;>
    simp [analyzeUser, engineInit, mkEngine, recommendCollaborative,
      recommendSentimentAware, recommendDiverse, hl, hn']

/-- Witness for C6: the spec's scenario — unknown user 999999. -/
theorem C6_unknown_user_notFound_witness :
    (usersRatingsOf (validRatings [⟨1, "A", ["Drama"], none⟩] [⟨7, 1, 4⟩]) 999999 = [] ∧
        (0 : Int) < 1) ∧
    (analyzeUser (engineInit none (fun _ _ _ => 0) [⟨1, "A", ["Drama"], none⟩]
        [⟨7, 1, 4⟩]) 999999 = .error .notFound ∧
      recommendCollaborative (engineInit none (fun _ _ _ => 0) [⟨1, "A", ["Drama"], none⟩]
        [⟨7, 1, 4⟩]) 999999 1 = .error .notFound ∧
      recommendSentimentAware (engineInit none (fun _ _ _ => 0) [⟨1, "A", ["Drama"], none⟩]
        [⟨7, 1, 4⟩]) 999999 1 = .error .notFound ∧
      recommendDiverse (engineInit none (fun _ _ _ => 0) [⟨1, "A", ["Drama"], none⟩]
        [⟨7, 1, 4⟩]) 999999 1 = .error .notFound) :=
  ⟨⟨by decide, by decide⟩,
    C6_unknown_user_notFound (fun _ _ _ => 0) [⟨1, "A", ["Drama"], none⟩]
      [⟨7, 1, 4⟩] 999999 1 (by decide) (by decide)⟩

/-- Claim C9: the profile builder's sentiment classification — comparing the
user's average rating on movies with sentiment_score > 0.6 against movies
with sentiment_score < 0.4: `positive_seeker` when the high-sentiment
average is at least one rating point higher, `critical` when the
low-sentiment average is, `balanced` otherwise (including when a bucket is
empty and the comparison cannot be made); users with fewer than
`minRatingCount` (5) ratings are `balanced` by default. -/
theorem C9_sentiment_classification (fit : List Rating → Nat → Nat → ℚ)
    (movies : List Movie) (ratings : List Rating) (u : Nat) (p : UserProfile)
    (hp : analyzeUser (engineInit none fit movies ratings) u = .ok p) :
    p.sentimentProfile =
      (let rs := usersRatingsOf (validRatings movies ratings) u
       let hi := highSentRatings movies rs
       let lo := lowSentRatings movies rs
       if rs.length < minRatingCount then .balanced
       else if hi = [] ∨ lo = [] then .balanced
       else if meanOf (lo.map (·.rating)) + 1 ≤ meanOf (hi.map (·.rating)) then
         SentimentProfile.positive_seeker
       else if meanOf (hi.map (·.rating)) + 1 ≤ meanOf (lo.map (·.rating)) then
         SentimentProfile.critical
       else SentimentProfile.balanced) := by
  have hbp : p = buildProfile movies (validRatings movies ratings) u := by
    by_cases h : usersRatingsOf (validRatings movies ratings) u = []
    · exfalso
      simp [analyzeUser, engineInit, mkEngine, lookup_profiles, h] at hp
    · simp [analyzeUser, engineInit, mkEngine, lookup_profiles, h] at hp
      exact hp.symm
  subst hbp
  rfl

/-- Witness for C9: user 7 has a single rating, hence fewer than 5, and the
profile comes out `balanced`. -/
theorem C9_sentiment_classification_witness :
    (analyzeUser (engineInit none (fun _ _ _ => 0)
        [⟨1, "A", ["Drama"], some (9/10)⟩] [⟨7, 1, 4⟩]) 7 =
      .ok (buildProfile [⟨1, "A", ["Drama"], some (9/10)⟩]
        (validRatings [⟨1, "A", ["Drama"], some (9/10)⟩] [⟨7, 1, 4⟩]) 7)) ∧
    (buildProfile [⟨1, "A", ["Drama"], some (9/10)⟩]
        (validRatings [⟨1, "A", ["Drama"], some (9/10)⟩] [⟨7, 1, 4⟩]) 7).sentimentProfile =
      (let rs := usersRatingsOf (validRatings [⟨1, "A", ["Drama"], some (9/10)⟩]
          [⟨7, 1, 4⟩]) 7
       let hi := highSentRatings [⟨1, "A", ["Drama"], some (9/10)⟩] rs
       let lo := lowSentRatings [⟨1, "A", ["Drama"], some (9/10)⟩] rs
       if rs.length < minRatingCount then .balanced
       else if hi = [] ∨ lo = [] then .balanced
       else if meanOf (lo.map (·.rating)) + 1 ≤ meanOf (hi.map (·.rating)) then
         SentimentProfile.positive_seeker
       else if meanOf (hi.map (·.rating)) + 1 ≤ meanOf (lo.map (·.rating)) then
         SentimentProfile.critical
       else SentimentProfile.balanced) :=
  ⟨rfl, C9_sentiment_classification (fun _ _ _ => 0)
    [⟨1, "A", ["Drama"], some (9/10)⟩] [⟨7, 1, 4⟩] 7 _ rfl⟩

/-- Every item the Collaborative Scorer recommends is an unseen movie
carrying its predicted score. -/
theorem mem_collabRecommend {e : Engine} {u k : Nat} {q : Nat × ℚ}
    (hq : q ∈ collabRecommend e u k) :
    hasRated e.ratings u q.1 = false ∧ q.2 = e.predict u q.1 := by
  unfold collabRecommend at hq
  have h1 := List.take_subset _ _ hq
  rw [List.mem_insertionSort] at h1
  obtain ⟨m, hm, he⟩ := List.mem_map.mp h1
  have hf := List.of_mem_filter hm
  cases he
  exact ⟨by simpa using hf, rfl⟩

/-- `hasRated = false` means no stored rating row of this user names the
movie. -/
theorem not_rated_of_hasRated_false {ratings : List Rating} {u mid : Nat}
    (h : hasRated ratings u mid = false) :
    ∀ rt ∈ ratings, rt.userId = u → rt.movieId ≠ mid := by
  intro rt hrt hru hrm
  have hany : ratings.any (fun r => r.userId == u && r.movieId == mid) = true :=
    List.any_eq_true.mpr ⟨rt, hrt, by simp [hru, hrm]⟩
  simp [hasRated, hany] at h

/-- Claim C2: for a known user and a positive count, the collaborative
recommendation succeeds with at most `n` items, none of them a movie the
user has already rated, each carrying its predicted score, ordered by
non-increasing score with ties broken by ascending movieId. -/
theorem C2_recommendCollaborative_spec (fit : List Rating → Nat → Nat → ℚ)
    (movies : List Movie) (ratings : List Rating) (u : Nat) (n : Int)
    (hu : usersRatingsOf (validRatings movies ratings) u ≠ []) (hn : 0 < n) :
    ∃ l, recommendCollaborative (engineInit none fit movies ratings) u n = .ok l ∧
      l.length ≤ n.toNat ∧
      (∀ q ∈ l, ∀ rt ∈ validRatings movies ratings, rt.userId = u → rt.movieId ≠ q.1) ∧
      (∀ q ∈ l, q.2 = fit (validRatings movies ratings) u q.1) ∧
      List.Sorted scoreRel l := by
  have hl : (buildProfiles movies (validRatings movies ratings)).lookup u =
      some (buildProfile movies (validRatings movies ratings) u) := by
    rw [lookup_profiles, if_neg hu]
  have hn' : ¬ n ≤ 0 := not_le.mpr hn
  refine ⟨collabRecommend (mkEngine fit movies ratings) u n.toNat, ?_, ?_, ?_, ?_, ?_⟩
  · simp [recommendCollaborative, engineInit, mkEngine, hn', hl]
  · exact List.length_take_le _ _
  · intro q hq rt hrt hru
    exact not_rated_of_hasRated_false (mem_collabRecommend hq).1 rt hrt hru
  · intro q hq
    exact (mem_collabRecommend hq).2
  · exact List.Pairwise.sublist (List.take_sublist _ _)
      (List.sorted_insertionSort scoreRel _)

/-- Witness for C2: three movies, user 7 has rated movie 3, count 2. -/
theorem C2_recommendCollaborative_spec_witness :
    (usersRatingsOf (validRatings
        [⟨1, "A", ["Drama"], some (9/10)⟩, ⟨2, "B", ["Comedy"], some (2/10)⟩,
          ⟨3, "C", ["Drama"], none⟩]
        [⟨7, 3, 5⟩]) 7 ≠ [] ∧ (0 : Int) < 2) ∧
    (∃ l, recommendCollaborative (engineInit none (fun _ _ _ => 3)
          [⟨1, "A", ["Drama"], some (9/10)⟩, ⟨2, "B", ["Comedy"], some (2/10)⟩,
            ⟨3, "C", ["Drama"], none⟩]
          [⟨7, 3, 5⟩]) 7 2 = .ok l ∧
      l.length ≤ (2 : Int).toNat ∧
      (∀ q ∈ l, ∀ rt ∈ validRatings
          [⟨1, "A", ["Drama"], some (9/10)⟩, ⟨2, "B", ["Comedy"], some (2/10)⟩,
            ⟨3, "C", ["Drama"], none⟩]
          [⟨7, 3, 5⟩], rt.userId = 7 → rt.movieId ≠ q.1) ∧
      (∀ q ∈ l, q.2 = (fun (_ : List Rating) (_ : Nat) (_ : Nat) => (3 : ℚ))
          (validRatings
            [⟨1, "A", ["Drama"], some (9/10)⟩, ⟨2, "B", ["Comedy"], some (2/10)⟩,
              ⟨3, "C", ["Drama"], none⟩]
            [⟨7, 3, 5⟩]) 7 q.1) ∧
      List.Sorted scoreRel l) :=
  ⟨⟨by decide, by decide⟩,
    C2_recommendCollaborative_spec (fun _ _ _ => 3)
      [⟨1, "A", ["Drama"], some (9/10)⟩, ⟨2, "B", ["Comedy"], some (2/10)⟩,
        ⟨3, "C", ["Drama"], none⟩]
      [⟨7, 3, 5⟩] 7 2 (by decide) (by decide)⟩

/-- `pickBest` returns one of the candidates it is given. -/
theorem pickBest_mem (c : Candidate) (l : List Candidate) : pickBest c l ∈ c :: l := by
  induction l generalizing c with
  | nil => simp [pickBest]
  | cons d ds ih =>
    rw [pickBest]
    by_cases h : preferred c d = true
    · rw [if_pos h]
      rcases List.mem_cons.mp (ih c) with h1 | h1
      · exact List.mem_cons.mpr (Or.inl h1)
      · exact List.mem_cons.mpr (Or.inr (List.mem_cons.mpr (Or.inr h1)))
    · rw [if_neg h]
      rcases List.mem_cons.mp (ih d) with h1 | h1
      · exact List.mem_cons.mpr (Or.inr (List.mem_cons.mpr (Or.inl h1)))
      · exact List.mem_cons.mpr (Or.inr (List.mem_cons.mpr (Or.inr h1)))

/-- Unfolding `poolGenres` over a cons cell. -/
theorem poolGenres_cons (c : Candidate) (l : List Candidate) :
    poolGenres (c :: l) = c.genres ∪ poolGenres l := rfl

/-- A genre is in the pool's genre set exactly when some pool candidate
carries it. -/
theorem mem_poolGenres {g : String} {l : List Candidate} :
    g ∈ poolGenres l ↔ ∃ c ∈ l, g ∈ c.genres := by
  induction l with
  | nil => simp [poolGenres]
  | cons c cs ih =>
    rw [poolGenres_cons, Finset.mem_union, ih]
    constructor
    · rintro (h | ⟨d, hd, hgd⟩)
      · exact ⟨c, List.mem_cons_self c cs, h⟩
      · exact ⟨d, List.mem_cons.mpr (Or.inr hd), hgd⟩
    · rintro ⟨d, hd, hgd⟩
      rcases List.mem_cons.mp hd with h | h
      · exact Or.inl (h ▸ hgd)
      · exact Or.inr ⟨d, h, hgd⟩

/-- Pool genre sets are monotone in the pool. -/
theorem poolGenres_mono {l₁ l₂ : List Candidate} (h : l₁ ⊆ l₂) :
    poolGenres l₁ ⊆ poolGenres l₂ := by
  intro g hg
  rcases mem_poolGenres.mp hg with ⟨c, hc, hgc⟩
  exact mem_poolGenres.mpr ⟨c, h hc, hgc⟩

/-- Removing a chosen candidate loses at most that candidate's genres. -/
theorem poolGenres_erase {chosen : Candidate} {pool : List Candidate}
    (hc : chosen ∈ pool) :
    poolGenres pool ⊆ chosen.genres ∪ poolGenres (pool.erase chosen) := by
  intro g hg
  rcases mem_poolGenres.mp hg with ⟨c, hcm, hgc⟩
  rcases List.mem_cons.mp ((List.perm_cons_erase hc).subset hcm) with h | h
  · exact Finset.mem_union_left _ (h ▸ hgc)
  · exact Finset.mem_union_right _ (mem_poolGenres.mpr ⟨c, h, hgc⟩)

/-- While some pool candidate still brings an uncovered genre, the greedy
step picks a candidate from the pool whose genres are not yet covered. -/
theorem chooseNext_not_covered {pool : List Candidate} {covered : Finset String}
    (h : ∃ d ∈ pool, ¬ d.genres ⊆ covered) :
    ∃ chosen, chooseNext pool covered = some chosen ∧ chosen ∈ pool ∧
      ¬ chosen.genres ⊆ covered := by
  match pool with
  | [] =>
    obtain ⟨d, hd, _⟩ := h
    exact absurd hd (List.not_mem_nil d)
  | c :: rest =>
    obtain ⟨d, hd, hdc⟩ := h
    have hdf : d ∈ (c :: rest).filter (fun x => !decide (x.genres ⊆ covered)) :=
      List.mem_filter.mpr ⟨hd, by simpa using hdc⟩
    cases hF : (c :: rest).filter (fun x => !decide (x.genres ⊆ covered)) with
    | nil =>
      rw [hF] at hdf
      exact absurd hdf (List.not_mem_nil d)
    | cons e es =>
      have hbm : pickBest e es ∈ e :: es := pickBest_mem e es
      rw [← hF] at hbm
      refine ⟨pickBest e es, ?_, List.filter_subset' _ hbm, ?_⟩
      · simp [chooseNext, hF]
      · have := List.of_mem_filter hbm
        simpa using this

/-- The greedy diversity loop: with enough picks left to cover every still
uncovered pool genre, the selection together with the already covered set
covers the whole pool's genres. -/
theorem greedySelect_covers :
    ∀ (fuel : Nat) (pool : List Candidate) (covered : Finset String),
      (poolGenres pool \ covered).card ≤ fuel →
      poolGenres pool ⊆ covered ∪ poolGenres (greedySelect fuel pool covered) := by
  intro fuel
  induction fuel with
  | zero =>
    intro pool covered h
    have h0 : poolGenres pool \ covered = ∅ :=
      Finset.card_eq_zero.mp (Nat.le_zero.mp h)
    have hsub : poolGenres pool ⊆ covered := by
      rwa [Finset.sdiff_eq_empty_iff_subset] at h0
    exact hsub.trans Finset.subset_union_left
  | succ f ih =>
    intro pool covered h
    by_cases hcov : poolGenres pool ⊆ covered
    · exact hcov.trans Finset.subset_union_left
    · have hex : ∃ d ∈ pool, ¬ d.genres ⊆ covered := by
        rcases Finset.not_subset.mp hcov with ⟨g, hg, hgc⟩
        rcases mem_poolGenres.mp hg with ⟨d, hd, hgd⟩
        exact ⟨d, hd, fun hs => hgc (hs hgd)⟩
      obtain ⟨chosen, hch, hmem, hnc⟩ := chooseNext_not_covered hex
      have hgeq : greedySelect (f + 1) pool covered =
          chosen :: greedySelect f (pool.erase chosen) (covered ∪ chosen.genres) := by
        simp [greedySelect, hch]
      rw [hgeq, poolGenres_cons]
      have hcard : (poolGenres (pool.erase chosen) \ (covered ∪ chosen.genres)).card ≤ f := by
        have hsub1 : poolGenres (pool.erase chosen) \ (covered ∪ chosen.genres) ⊆
            poolGenres pool \ covered := by
          intro g hgx
          rcases Finset.mem_sdiff.mp hgx with ⟨hg1, hg2⟩
          exact Finset.mem_sdiff.mpr
            ⟨poolGenres_mono (List.erase_subset _ _) hg1,
              fun hc => hg2 (Finset.mem_union_left _ hc)⟩
        rcases Finset.not_subset.mp hnc with ⟨x, hx, hxc⟩
        have hxin : x ∈ poolGenres pool \ covered :=
          Finset.mem_sdiff.mpr ⟨mem_poolGenres.mpr ⟨chosen, hmem, hx⟩, hxc⟩
        have hxout : x ∉ poolGenres (pool.erase chosen) \ (covered ∪ chosen.genres) := by
          intro hmem2
          exact (Finset.mem_sdiff.mp hmem2).2 (Finset.mem_union_right _ hx)
        have hss : poolGenres (pool.erase chosen) \ (covered ∪ chosen.genres) ⊂
            poolGenres pool \ covered :=
          (Finset.ssubset_iff_of_subset hsub1).mpr ⟨x, hxin, hxout⟩
        have hlt := Finset.card_lt_card hss
        omega
      have hih := ih (pool.erase chosen) (covered ∪ chosen.genres) hcard
      intro g hgp
      rcases Finset.mem_union.mp (poolGenres_erase hmem hgp) with h1 | h1
      · exact Finset.mem_union_right _ (Finset.mem_union_left _ h1)
      · rcases Finset.mem_union.mp (hih h1) with h2 | h2
        · rcases Finset.mem_union.mp h2 with h3 | h3
          · exact Finset.mem_union_left _ h3
          · exact Finset.mem_union_right _ (Finset.mem_union_left _ h3)
        · exact Finset.mem_union_right _ (Finset.mem_union_right _ h2)

/-- Claim C5: when the candidate pool fed to the Diversity Reranker covers a
genre set G and `n ≥ |G|`, the list returned by `recommendDiverse(userId, n)`
covers every genre of G. -/
theorem C5_recommendDiverse_coverage (fit : List Rating → Nat → Nat → ℚ)
    (movies : List Movie) (ratings : List Rating) (u : Nat) (n : Int)
    (p : UserProfile)
    (hp : analyzeUser (engineInit none fit movies ratings) u = .ok p)
    (hn : 0 < n)
    (hcard : (poolGenres (diverseCandidates (mkEngine fit movies ratings) p u
        n.toNat)).card ≤ n.toNat) :
    ∃ out, recommendDiverse (engineInit none fit movies ratings) u n = .ok out ∧
      poolGenres (diverseCandidates (mkEngine fit movies ratings) p u n.toNat) ⊆
        poolGenres out := by
  have hu : usersRatingsOf (validRatings movies ratings) u ≠ [] := by
    intro h0
    simp [analyzeUser, engineInit, mkEngine, lookup_profiles, h0] at hp
  have hpp : p = buildProfile movies (validRatings movies ratings) u := by
    simp [analyzeUser, engineInit, mkEngine, lookup_profiles, hu] at hp
    exact hp.symm
  have hl : (buildProfiles movies (validRatings movies ratings)).lookup u = some p := by
    rw [lookup_profiles, if_neg hu, hpp]
  have hn' : ¬ n ≤ 0 := not_le.mpr hn
  refine ⟨rerank (diverseCandidates (mkEngine fit movies ratings) p u n.toNat) n.toNat,
    ?_, ?_⟩
  · simp [recommendDiverse, engineInit, mkEngine, hn', hl]
  · have hcov := greedySelect_covers n.toNat
      (diverseCandidates (mkEngine fit movies ratings) p u n.toNat) ∅
      (by simpa using hcard)
    simpa [rerank] using hcov

/-- Witness for C5: two unseen single-genre movies, a pool covering two
genres, count 2. -/
theorem C5_recommendDiverse_coverage_witness :
    (analyzeUser (engineInit none (fun _ _ _ => 3)
        [⟨1, "A", ["G1"], none⟩, ⟨2, "B", ["G2"], none⟩, ⟨3, "C", ["G1"], none⟩]
        [⟨7, 3, 5⟩]) 7 =
      .ok (buildProfile
        [⟨1, "A", ["G1"], none⟩, ⟨2, "B", ["G2"], none⟩, ⟨3, "C", ["G1"], none⟩]
        (validRatings
          [⟨1, "A", ["G1"], none⟩, ⟨2, "B", ["G2"], none⟩, ⟨3, "C", ["G1"], none⟩]
          [⟨7, 3, 5⟩]) 7) ∧
      (0 : Int) < 2 ∧
      (poolGenres (diverseCandidates (mkEngine (fun _ _ _ => 3)
          [⟨1, "A", ["G1"], none⟩, ⟨2, "B", ["G2"], none⟩, ⟨3, "C", ["G1"], none⟩]
          [⟨7, 3, 5⟩])
        (buildProfile
          [⟨1, "A", ["G1"], none⟩, ⟨2, "B", ["G2"], none⟩, ⟨3, "C", ["G1"], none⟩]
          (validRatings
            [⟨1, "A", ["G1"], none⟩, ⟨2, "B", ["G2"], none⟩, ⟨3, "C", ["G1"], none⟩]
            [⟨7, 3, 5⟩]) 7) 7 (2 : Int).toNat)).card ≤ (2 : Int).toNat) ∧
    (∃ out, recommendDiverse (engineInit none (fun _ _ _ => 3)
        [⟨1, "A", ["G1"], none⟩, ⟨2, "B", ["G2"], none⟩, ⟨3, "C", ["G1"], none⟩]
        [⟨7, 3, 5⟩]) 7 2 = .ok out ∧
      poolGenres (diverseCandidates (mkEngine (fun _ _ _ => 3)
          [⟨1, "A", ["G1"], none⟩, ⟨2, "B", ["G2"], none⟩, ⟨3, "C", ["G1"], none⟩]
          [⟨7, 3, 5⟩])
        (buildProfile
          [⟨1, "A", ["G1"], none⟩, ⟨2, "B", ["G2"], none⟩, ⟨3, "C", ["G1"], none⟩]
          (validRatings
            [⟨1, "A", ["G1"], none⟩, ⟨2, "B", ["G2"], none⟩, ⟨3, "C", ["G1"], none⟩]
            [⟨7, 3, 5⟩]) 7) 7 (2 : Int).toNat) ⊆ poolGenres out) :=
  ⟨⟨rfl, by decide, by decide⟩,
    C5_recommendDiverse_coverage (fun _ _ _ => 3)
      [⟨1, "A", ["G1"], none⟩, ⟨2, "B", ["G2"], none⟩, ⟨3, "C", ["G1"], none⟩]
      [⟨7, 3, 5⟩] 7 2 _ rfl (by decide) (by decide)⟩
